import Mathlib

/-!
Verification of the cocktail-browser client (src/script.js).

The script is a browser-side client for TheCocktailDB HTTP API.  This file
gives a shallow embedding of its API-client, renderer and interaction-controller
layers and proves the specification claims about them.

Modelling conventions:
* A JS string field that may be `null`/`undefined` is `Option String`
  (`none` stands for the absent value; JS truthiness of such a field is
  `jsTruthy`).  Template-literal interpolation of an absent field is `jsStr`.
* An HTTP round trip is a value of `ApiResponse α`: the `ok` flag and `status`
  of the response, and its body, which is either unparseable JSON
  (`ApiBody.malformed` with the engine's error message), a parsed body with
  `drinks: null`, or a parsed body with a `drinks` array.
* A thrown/propagated JS exception is the `Except.error` branch; code that
  awaits inside `try`/`catch` is a `match` on that result.
* The two display regions (`#cocktail-display`, `#categories-display`) form
  `Dom`; writing `innerHTML` is a functional update.
* Observable side channels (`console.log`, `console.error`, issuing `fetch`)
  are recorded as an `Event` trace in the order the script performs them.
* JS `String.prototype.trim` is `jsTrim` (list-based so that the kernel can
  evaluate it); `encodeURIComponent` is modelled byte-faithfully, including
  the UTF-8 percent-escaping of non-ASCII characters.
-/

set_option linter.unusedVariables false

/-- JS truthiness of a nullable string field: `null`/`undefined` and `""` are falsy. -/
def jsTruthy (o : Option String) : Bool := !(o.getD "" == "")

/-- JS template-literal coercion of a nullable string: an absent field
interpolates as the text of the absent value rather than throwing. -/
def jsStr (o : Option String) : String := o.getD "null"

/-- Model of JS `String.prototype.trim`: drop leading and trailing whitespace. -/
def jsTrim (s : String) : String :=
  String.mk (((s.data.dropWhile Char.isWhitespace).reverse.dropWhile Char.isWhitespace).reverse)

/-- Concatenation of a list of markup fragments (JS `+=` accumulation). -/
def strConcat : List String → String
  | [] => ""
  | s :: rest => s ++ strConcat rest

/-- Calling `.trim()` on a nullable string: throws a `TypeError` on
`null`/`undefined`, otherwise trims.  Used by the renderer embedding that
tracks whether rendering can throw. -/
def jsTrimE (o : Option String) : Except String String :=
  match o with
  | none => Except.error "TypeError: Cannot read properties of null"
  | some s => Except.ok (jsTrim s)

/-! ### Percent-encoding (`encodeURIComponent`) -/

/-- UTF-8 encoding of a Unicode code point, as its list of bytes. -/
def utf8EncodeNat (n : Nat) : List Nat :=
  if n < 128 then [n]
  else if n < 2048 then [192 + n / 64, 128 + n % 64]
  else if n < 65536 then [224 + n / 4096, 128 + n / 64 % 64, 128 + n % 64]
  else [240 + n / 262144, 128 + n / 4096 % 64, 128 + n / 64 % 64, 128 + n % 64]

/-- Recognize a UTF-8 continuation byte. -/
def utf8Cont (b : Nat) : Bool := decide (128 ≤ b ∧ b < 192)

/-- State of the byte-level UTF-8 decoding automaton: code points decoded so
far (most recent first), the partial code point being assembled, the number of
continuation bytes still expected, and a sticky failure flag. -/
structure Utf8State where
  acc : List Nat
  cur : Nat
  need : Nat
  bad : Bool

/-- One byte of UTF-8 decoding. -/
def utf8Step (st : Utf8State) (b : Nat) : Utf8State :=
  if st.bad then st
  else if st.need = 0 then
    if b < 128 then { st with acc := b :: st.acc }
    else if b < 192 then { st with bad := true }
    else if b < 224 then { st with cur := b - 192, need := 1 }
    else if b < 240 then { st with cur := b - 224, need := 2 }
    else { st with cur := b - 240, need := 3 }
  else if utf8Cont b then
    if st.need = 1 then
      { st with acc := (st.cur * 64 + (b - 128)) :: st.acc, cur := 0, need := 0 }
    else { st with cur := st.cur * 64 + (b - 128), need := st.need - 1 }
  else { st with bad := true }

/-- Decoding of a byte list back to code points (lenient: used only to state
that percent-encoding is invertible, i.e. applied exactly once). -/
def utf8DecodeList (l : List Nat) : Option (List Nat) :=
  let st := l.foldl utf8Step { acc := [], cur := 0, need := 0, bad := false }
  if st.bad ∨ st.need ≠ 0 then none else some st.acc.reverse

/-- Characters `encodeURIComponent` leaves unescaped:
alphanumerics and `- _ . ! ~ * \x27 ( )`. -/
def isUnreservedURI (c : Char) : Bool :=
  decide ((65 ≤ c.toNat ∧ c.toNat ≤ 90) ∨ (97 ≤ c.toNat ∧ c.toNat ≤ 122)
    ∨ (48 ≤ c.toNat ∧ c.toNat ≤ 57)
    ∨ c.toNat = 45 ∨ c.toNat = 95 ∨ c.toNat = 46 ∨ c.toNat = 33 ∨ c.toNat = 126
    ∨ c.toNat = 42 ∨ c.toNat = 39 ∨ c.toNat = 40 ∨ c.toNat = 41)

/-- Uppercase hexadecimal digit for a nibble. -/
def hexDigitChar (n : Nat) : Char := if n < 10 then Char.ofNat (48 + n) else Char.ofNat (55 + n)

/-- Percent-escape of one byte (`%XX`, uppercase hex, as `encodeURIComponent` emits). -/
def percentByte (b : Nat) : List Char := [Char.ofNat 37, hexDigitChar (b / 16), hexDigitChar (b % 16)]

/-- Encoding of a single character: kept verbatim when unreserved, otherwise
each of its UTF-8 bytes is percent-escaped. -/
def encodeURIComponentChar (c : Char) : List Char :=
  if isUnreservedURI c then [c] else (utf8EncodeNat c.toNat).flatMap percentByte

/-- Model of JS `encodeURIComponent`. -/
def encodeURIComponent (s : String) : String :=
  String.mk (s.data.flatMap encodeURIComponentChar)

/-- Value of a hexadecimal digit character. -/
def hexVal (c : Char) : Option Nat :=
  if 48 ≤ c.toNat ∧ c.toNat ≤ 57 then some (c.toNat - 48)
  else if 65 ≤ c.toNat ∧ c.toNat ≤ 70 then some (c.toNat - 55)
  else if 97 ≤ c.toNat ∧ c.toNat ≤ 102 then some (c.toNat - 87)
  else none

/-- Pending progress of the percent-unescaping automaton: between escapes,
just after a `%`, or after `%X` with the high nibble in hand. -/
inductive PercentPending
  | idle
  | one
  | two (hi : Nat)

/-- State of the percent-unescaping automaton: bytes decoded so far (most
recent first), the pending escape progress, and a sticky failure flag. -/
structure PercentState where
  acc : List Nat
  pending : PercentPending
  bad : Bool

/-- One character of percent-unescaping: a raw `%` must start a valid `%XX`
escape, every other character stands for its own code point. -/
def percentStep (st : PercentState) (c : Char) : PercentState :=
  if st.bad then st
  else
    match st.pending with
    | PercentPending.idle =>
      if c.toNat = 37 then { st with pending := PercentPending.one }
      else { st with acc := c.toNat :: st.acc }
    | PercentPending.one =>
      match hexVal c with
      | some hi => { st with pending := PercentPending.two hi }
      | none => { st with bad := true }
    | PercentPending.two hi =>
      match hexVal c with
      | some lo => { st with acc := (16 * hi + lo) :: st.acc, pending := PercentPending.idle }
      | none => { st with bad := true }

/-- Percent-decoding of a character list into raw bytes. -/
def percentDecodeBytes (l : List Char) : Option (List Nat) :=
  let st := l.foldl percentStep { acc := [], pending := PercentPending.idle, bad := false }
  match st.pending, st.bad with
  | PercentPending.idle, false => some st.acc.reverse
  | _, _ => none

/-- Model of JS `decodeURIComponent` (percent-unescape, then UTF-8 decode).
Used to state that the encoding in the request URLs is applied exactly once. -/
def decodeURIComponent (s : String) : Option String :=
  (percentDecodeBytes s.data).bind (fun bs =>
    (utf8DecodeList bs).map (fun ns => String.mk (ns.map Char.ofNat)))

/-! ### Data model -/

/-- A cocktail record as consumed from the API.  The fifteen positional
`strIngredientN` / `strMeasureN` properties are kept as lists indexed by
position (position `i` of the script is entry `i - 1`; positions beyond the
list are the absent value, like a missing JS property). -/
structure Drink where
  idDrink : Option String := none
  strDrink : Option String := none
  strDrinkThumb : Option String := none
  strCategory : Option String := none
  strAlcoholic : Option String := none
  strGlass : Option String := none
  strInstructions : Option String := none
  strIngredients : List (Option String) := []
  strMeasures : List (Option String) := []

/-- The property read `drink[\x60strIngredient${i}\x60]` of the script. -/
def Drink.strIngredient (d : Drink) (i : Nat) : Option String :=
  (d.strIngredients.getD (i - 1) none)

/-- The property read `drink[\x60strMeasure${i}\x60]` of the script. -/
def Drink.strMeasure (d : Drink) (i : Nat) : Option String :=
  (d.strMeasures.getD (i - 1) none)

/-- A category record (`list.php?c=list` rows). -/
structure Category where
  strCategory : Option String := none

/-- A cocktail summary (`filter.php?c=...` rows). -/
structure DrinkSummary where
  idDrink : Option String := none
  strDrink : Option String := none
  strDrinkThumb : Option String := none

/-- Errors surfaced by the API client, with the message the script attaches. -/
inductive ApiError
  | httpError (status : Nat)
  | parseError (msg : String)

/-- The `error.message` the interaction flows interpolate into the display. -/
def ApiError.message : ApiError → String
  | ApiError.httpError status => "HTTP error! Status: " ++ toString status
  | ApiError.parseError msg => msg

/-- The body of an HTTP response for an endpoint whose rows have type `α`. -/
inductive ApiBody (α : Type)
  | malformed (msg : String)
  | drinksNull
  | drinks (l : List α)

/-- One HTTP round trip as observed by the script. -/
structure ApiResponse (α : Type) where
  ok : Bool
  status : Nat
  body : ApiBody α

/-- The two display regions the script writes to. -/
structure Dom where
  cocktailDisplay : String
  categoriesDisplay : String

/-- Observable side effects, in program order. -/
inductive Event
  | consoleLog (line : String)
  | httpRequest (url : String)
  | consoleError (line : String)

/-- Recognize an outgoing request in a trace. -/
def Event.isHttpRequest : Event → Bool
  | Event.httpRequest _ => true
  | _ => false

/-- Recognize a `console.log` line in a trace. -/
def Event.isConsoleLog : Event → Bool
  | Event.consoleLog _ => true
  | _ => false

/-- Recognize a `console.error` line in a trace. -/
def Event.isConsoleError : Event → Bool
  | Event.consoleError _ => true
  | _ => false

/-- Whether some console log line is emitted before the first outgoing
request of a trace. -/
def urlLoggedBeforeRequest (evs : List Event) : Bool :=
  (evs.takeWhile (fun e => !(Event.isHttpRequest e))).any Event.isConsoleLog

/-! ### API configuration and request URLs (built exactly as the script does) -/

def cocktailApiBaseUrl : String := "https://www.thecocktaildb.com/api/json/v1/1/"

def randomUrl : String := cocktailApiBaseUrl ++ "random.php"

def searchUrl (term : String) : String :=
  cocktailApiBaseUrl ++ "search.php?s=" ++ encodeURIComponent term

def lookupUrl (drinkId : String) : String :=
  cocktailApiBaseUrl ++ "lookup.php?i=" ++ encodeURIComponent drinkId

def categoriesUrl : String := cocktailApiBaseUrl ++ "list.php?c=list"

def filterUrl (category : String) : String :=
  cocktailApiBaseUrl ++ "filter.php?c=" ++ encodeURIComponent category

/-! ### Renderer -/

/-- Markup written by `displayError`. -/
def errorText (message : String) : String :=
  "<p class=\"error-text\">" ++ message ++ "</p>"

/-- Markup written by `displayLoading`. -/
def loadingText (message : String) : String :=
  "<p class=\"loading-text\">" ++ message ++ "</p>"

/-- The not-found markup of `displayCocktail` for an absent drink. -/
def notFoundCocktailText : String :=
  "<p class=\"error-text\">No se encontró ningún cóctel con ese nombre.</p>"

/-- The markup `displayCategories` writes when the list is absent or empty. -/
def noCategoriesText : String :=
  "<p class=\"error-text\">No se encontraron categorías.</p>"

/-- One `<li>` of the ingredient list: the trimmed measure followed by a
space when the measure is truthy, then the trimmed ingredient. -/
def ingredientLi (measure ingredient : Option String) : String :=
  "<li>" ++ (if jsTruthy measure then jsTrim (measure.getD "") ++ " " else "")
    ++ jsTrim (ingredient.getD "") ++ "</li>"

/-- The `for (let i = 1; i <= 15; i++)` loop body of `displayCocktail`,
started at position `i` with the remaining iteration count as fuel; it stops
at the first falsy ingredient (`if (!ingredient) break`). -/
def ingredientsGo (d : Drink) (i : Nat) : Nat → String
  | 0 => ""
  | fuel + 1 =>
    if jsTruthy (d.strIngredient i) then
      ingredientLi (d.strMeasure i) (d.strIngredient i) ++ ingredientsGo d (i + 1) fuel
    else ""

/-- The complete `ingredientsHtml` accumulator of `displayCocktail`. -/
def ingredientsHtml (d : Drink) : String := "<ul>" ++ ingredientsGo d 1 15 ++ "</ul>"

/-- The detail template of `displayCocktail` (the template literal assigned to
`cocktailDisplayDiv.innerHTML`), abstracted over the ingredient list markup. -/
def cocktailDetailTemplate (d : Drink) (ih : String) : String :=
  "\n            <h3>" ++ jsStr d.strDrink ++ "</h3>\n            <img src=\""
    ++ jsStr d.strDrinkThumb ++ "\" alt=\"[Imagen de " ++ jsStr d.strDrink
    ++ "]\" onerror=\"this.style.display=\x27none\x27\">\n            "
    ++ (if jsTruthy d.strCategory then
          "<p><strong>Categoría:</strong> " ++ jsStr d.strCategory ++ "</p>" else "")
    ++ "\n            "
    ++ (if jsTruthy d.strAlcoholic then
          "<p><strong>Tipo:</strong> " ++ jsStr d.strAlcoholic ++ "</p>" else "")
    ++ "\n            "
    ++ (if jsTruthy d.strGlass then
          "<p><strong>Vaso recomendado:</strong> " ++ jsStr d.strGlass ++ "</p>" else "")
    ++ "\n\n            <h4>Ingredientes:</h4>\n            " ++ ih
    ++ "\n\n            <h4>Instrucciones:</h4>\n            <p>"
    ++ (if jsTruthy d.strInstructions then jsStr d.strInstructions
        else "Instrucciones no disponibles.")
    ++ "</p>\n        "

/-- Markup produced by `displayCocktail` for a possibly-absent drink. -/
def displayCocktailHtml (drink : Option Drink) : String :=
  match drink with
  | none => notFoundCocktailText
  | some d => cocktailDetailTemplate d (ingredientsHtml d)

/-- The ingredient loop with every `.trim()` call tracked as a fallible JS
method call, to show the loop's truthiness guards keep it from throwing. -/
def ingredientsGoExc (d : Drink) (i : Nat) : Nat → Except String String
  | 0 => Except.ok ""
  | fuel + 1 =>
    if jsTruthy (d.strIngredient i) then
      match (if jsTruthy (d.strMeasure i) then
               Except.map (fun t => t ++ " ") (jsTrimE (d.strMeasure i))
             else Except.ok "") with
      | Except.error e => Except.error e
      | Except.ok mpart =>
        match jsTrimE (d.strIngredient i) with
        | Except.error e => Except.error e
        | Except.ok ipart =>
          match ingredientsGoExc d (i + 1) fuel with
          | Except.error e => Except.error e
          | Except.ok rest => Except.ok ("<li>" ++ mpart ++ ipart ++ "</li>" ++ rest)
    else Except.ok ""

/-- `displayCocktail` with its fallible JS method calls tracked: the `!drink`
guard protects the detail template, the loop guards protect the `.trim()`s. -/
def displayCocktailExc (drink : Option Drink) : Except String String :=
  match drink with
  | none => Except.ok notFoundCocktailText
  | some d =>
    match ingredientsGoExc d 1 15 with
    | Except.error e => Except.error e
    | Except.ok items => Except.ok (cocktailDetailTemplate d ("<ul>" ++ items ++ "</ul>"))

/-- One clickable category card of `displayCategories`. -/
def categoryCardHtml (c : Category) : String :=
  "\n                <div class=\"category-card m-2 p-4 bg-white rounded-lg shadow-md cursor-pointer hover:bg-teal-100\"\n                     data-category=\""
    ++ jsStr c.strCategory
    ++ "\"\n                     style=\"width: 150px; text-align: center;\">\n                    "
    ++ jsStr c.strCategory ++ "\n                </div>\n            "

/-- Markup produced by `displayCategories` (`!categories || categories.length === 0`
renders the none-found message; otherwise one card per category). -/
def displayCategoriesHtml (categories : Option (List Category)) : String :=
  if !categories.isSome || (categories.getD []).length == 0 then noCategoriesText
  else strConcat ((categories.getD []).map categoryCardHtml)

/-- One clickable cocktail card of the category grid. -/
def cocktailItemHtml (d : DrinkSummary) : String :=
  "\n                    <div class=\"cocktail-item m-2 p-4 bg-white rounded-lg shadow-md text-center cursor-pointer\" data-drink-id=\""
    ++ jsStr d.idDrink ++ "\">\n                        <img src=\"" ++ jsStr d.strDrinkThumb
    ++ "\" alt=\"" ++ jsStr d.strDrink
    ++ "\" style=\"max-width: 150px; height: auto; margin: 0 auto;\">\n                        <h3 class=\"text-lg font-semibold\">"
    ++ jsStr d.strDrink ++ "</h3>\n                    </div>\n                "

/-- The responsive card grid built by `fetchAndDisplayCocktailsByCategory`. -/
def cocktailGridHtml (l : List DrinkSummary) : String :=
  "<div class=\"grid grid-cols-2 md:grid-cols-3 lg:grid-cols-4 gap-4\">"
    ++ strConcat (l.map cocktailItemHtml) ++ "</div>"

/-- Writing `displayCocktail`'s markup into its display region. -/
def renderCocktailInto (drink : Option Drink) (dom : Dom) : Dom :=
  { dom with cocktailDisplay := displayCocktailHtml drink }

/-- Writing `displayCategories`'s markup into its display region. -/
def renderCategoriesInto (categories : Option (List Category)) (dom : Dom) : Dom :=
  { dom with categoriesDisplay := displayCategoriesHtml categories }

/-- Writing the category grid into the cocktail display region. -/
def renderGridInto (l : List DrinkSummary) (dom : Dom) : Dom :=
  { dom with cocktailDisplay := cocktailGridHtml l }

/-- Writing `displayLoading`'s markup into the cocktail display region. -/
def renderLoadingInto (message : String) (dom : Dom) : Dom :=
  { dom with cocktailDisplay := loadingText message }

/-- Writing `displayError`'s markup into the cocktail display region. -/
def renderErrorInto (message : String) (dom : Dom) : Dom :=
  { dom with cocktailDisplay := errorText message }

/-! ### API client -/

/-- The shared single-cocktail fetch helper `fetchCocktailData`.  It logs the
URL, issues the request, raises on a non-ok status or a malformed body
(re-thrown after `console.error`), returns the absent value when `drinks` is
`null`, and otherwise returns `drinks[0]`.  A JS subtlety kept here: an empty
`drinks` array is truthy, so it reaches `data.drinks[0]`, which is
`undefined`; `List.head?` yields the absent value for both routes. -/
def fetchCocktailData (url : String) (r : ApiResponse Drink) :
    Except ApiError (Option Drink) × List Event :=
  let preEvents := [Event.consoleLog ("Fetching URL: " ++ url), Event.httpRequest url]
  if r.ok = false then
    let e := ApiError.httpError r.status
    (Except.error e, preEvents ++ [Event.consoleError ("Cocktail Fetch error: " ++ e.message)])
  else
    match r.body with
    | ApiBody.malformed msg =>
      let e := ApiError.parseError msg
      (Except.error e, preEvents ++ [Event.consoleError ("Cocktail Fetch error: " ++ e.message)])
    | ApiBody.drinksNull => (Except.ok none, preEvents)
    | ApiBody.drinks l => (Except.ok l.head?, preEvents)

/-- The returned value of `fetchCocktailData`, independent of its side
channel (used to state that logging has no behavioral effect). -/
def fetchCocktailDataResult (r : ApiResponse Drink) : Except ApiError (Option Drink) :=
  if r.ok = false then Except.error (ApiError.httpError r.status)
  else
    match r.body with
    | ApiBody.malformed msg => Except.error (ApiError.parseError msg)
    | ApiBody.drinksNull => Except.ok none
    | ApiBody.drinks l => Except.ok l.head?

/-- The category-list operation `fetchCocktailCategories`.  Its `try`/`catch`
traps its own HTTP/parse failures: it logs them, renders the error message
into the cocktail display region itself, and returns `null` to its caller, so
its result channel is always `Except.ok`. -/
def fetchCocktailCategoriesRun (r : ApiResponse Category) (dom : Dom) :
    Except ApiError (Option (List Category)) × Dom × List Event :=
  if r.ok = false then
    let e := ApiError.httpError r.status
    (Except.ok none,
      { dom with cocktailDisplay := errorText ("Error al cargar las categorías: " ++ e.message) },
      [Event.httpRequest categoriesUrl, Event.consoleError ("Category Fetch error: " ++ e.message)])
  else
    match r.body with
    | ApiBody.malformed msg =>
      let e := ApiError.parseError msg
      (Except.ok none,
        { dom with cocktailDisplay := errorText ("Error al cargar las categorías: " ++ e.message) },
        [Event.httpRequest categoriesUrl,
          Event.consoleError ("Category Fetch error: " ++ e.message)])
    | ApiBody.drinksNull => (Except.ok none, dom, [Event.httpRequest categoriesUrl])
    | ApiBody.drinks l => (Except.ok (some l), dom, [Event.httpRequest categoriesUrl])

/-- Spec-side model, for comparison with `fetchCocktailCategoriesRun`: per the
specification's propagation rule the API client would surface
`HttpError`/`ParseError` by raising them to the interaction controller. -/
def fetchCategoryListSpec (r : ApiResponse Category) :
    Except ApiError (Option (List Category)) :=
  if r.ok = false then Except.error (ApiError.httpError r.status)
  else
    match r.body with
    | ApiBody.malformed msg => Except.error (ApiError.parseError msg)
    | ApiBody.drinksNull => Except.ok none
    | ApiBody.drinks l => Except.ok (some l)

/-! ### Interaction controller flows -/

/-- The random-cocktail flow: fetch via `fetchCocktailData`, render the drink,
or render the error state on a trapped raise. -/
def fetchAndDisplayRandomCocktail (r : ApiResponse Drink) (dom : Dom) : Dom × List Event :=
  let fr := fetchCocktailData randomUrl r
  match fr.1 with
  | Except.ok drink => ({ dom with cocktailDisplay := displayCocktailHtml drink }, fr.2)
  | Except.error e =>
    ({ dom with cocktailDisplay := errorText ("Error al cargar cóctel aleatorio: " ++ e.message) },
      fr.2)

/-- The search flow: trims the input, short-circuits to the validation error
when empty, otherwise fetches the exact-name search endpoint and renders. -/
def searchAndDisplayCocktail (inputValue : String) (r : ApiResponse Drink) (dom : Dom) :
    Dom × List Event :=
  let searchTerm := jsTrim inputValue
  if searchTerm == "" then
    ({ dom with
        cocktailDisplay := errorText "Por favor, introduce un nombre de cóctel para buscar." },
      [])
  else
    let fr := fetchCocktailData (searchUrl searchTerm) r
    match fr.1 with
    | Except.ok drink => ({ dom with cocktailDisplay := displayCocktailHtml drink }, fr.2)
    | Except.error e =>
      ({ dom with cocktailDisplay := errorText ("Error al buscar cóctel: " ++ e.message) }, fr.2)

/-- The detail-view flow for a clicked grid card. -/
def fetchAndDisplayCocktailDetails (drinkId : String) (r : ApiResponse Drink) (dom : Dom) :
    Dom × List Event :=
  let fr := fetchCocktailData (lookupUrl drinkId) r
  match fr.1 with
  | Except.ok drink => ({ dom with cocktailDisplay := displayCocktailHtml drink }, fr.2)
  | Except.error e =>
    ({ dom with
        cocktailDisplay := errorText ("Error al cargar detalles del cóctel: " ++ e.message) },
      fr.2)

/-- The category-browse flow: fetch `filter.php` (with no log line before the
request), render the none-found message on `drinks: null`, the grid on data,
and the trapped error state otherwise. -/
def fetchAndDisplayCocktailsByCategory (category : String) (r : ApiResponse DrinkSummary)
    (dom : Dom) : Dom × List Event :=
  let evs := [Event.httpRequest (filterUrl category)]
  if r.ok = false then
    let e := ApiError.httpError r.status
    ({ dom with
        cocktailDisplay :=
          errorText ("Error al cargar cócteles de la categoría \"" ++ category ++ "\": "
            ++ e.message) },
      evs)
  else
    match r.body with
    | ApiBody.malformed msg =>
      ({ dom with
          cocktailDisplay :=
            errorText ("Error al cargar cócteles de la categoría \"" ++ category ++ "\": "
              ++ msg) },
        evs)
    | ApiBody.drinksNull =>
      ({ dom with
          cocktailDisplay :=
            "<p class=\"error-text\">No se encontraron cócteles en la categoría \""
              ++ category ++ "\".</p>" },
        evs)
    | ApiBody.drinks l => ({ dom with cocktailDisplay := cocktailGridHtml l }, evs)

/-- Bootstrap: `initializeCategories` awaits the category fetch (with no
`try`/`catch` of its own) and hands the result to `displayCategories`. -/
def initializeCategoriesRun (r : ApiResponse Category) (dom : Dom) : Dom × List Event :=
  let res := fetchCocktailCategoriesRun r dom
  match res.1 with
  | Except.ok categories =>
    ({ res.2.1 with categoriesDisplay := displayCategoriesHtml categories }, res.2.2)
  | Except.error _ => (res.2.1, res.2.2)

/-! ### Concrete fixtures -/

/-- An empty page state. -/
def emptyDom : Dom := { cocktailDisplay := "", categoriesDisplay := "" }

/-- A drink used as a concrete witness input. -/
def drinkMargarita : Drink := { idDrink := some "11007", strDrink := some "Margarita" }

/-- A successful single-drink response. -/
def respOneDrink : ApiResponse Drink :=
  { ok := true, status := 200, body := ApiBody.drinks [drinkMargarita] }

/-- A successful response whose parsed body has `drinks: null`. -/
def respDrinksNull : ApiResponse Drink :=
  { ok := true, status := 200, body := ApiBody.drinksNull }

/-- A failed (HTTP 500) single-drink response. -/
def respHttp500Drink : ApiResponse Drink :=
  { ok := false, status := 500, body := ApiBody.drinksNull }

/-- A failed (HTTP 500) category-list response. -/
def respHttp500Cat : ApiResponse Category :=
  { ok := false, status := 500, body := ApiBody.drinksNull }

/-- A successful category-list response. -/
def respCategoriesOk : ApiResponse Category :=
  { ok := true, status := 200, body := ApiBody.drinks [{ strCategory := some "Ordinary Drink" }] }

/-- The boundary-behavior record of the spec: ingredients at positions 1, 2
and 4 only (position 3 absent), with a measure at 1, no measure at 2. -/
def drink124 : Drink :=
  { strDrink := some "Test"
    strIngredients := [some "Vodka", some "Triple sec", none, some "Lime juice"]
    strMeasures := [some " 4 cl ", none, none, some "1 cl"] }

/-! ### Lemmas about the percent-encoding model -/

theorem char_toNat_lt (c : Char) : c.toNat < 1114112 := by
  rcases c with ⟨v, hv⟩
  rcases hv with h | ⟨h1, h2⟩ <;> simp [Char.toNat] <;> omega

theorem utf8EncodeNat_lt_256 (n : Nat) (h : n < 1114112) :
    ∀ b ∈ utf8EncodeNat n, b < 256 := by
  intro b hb
  unfold utf8EncodeNat at hb
  by_cases h1 : n < 128
  · simp [h1] at hb
    omega
  · by_cases h2 : n < 2048
    · simp [h1, h2] at hb
      rcases hb with hb | hb <;> omega
    · by_cases h3 : n < 65536
      · simp [h1, h2, h3] at hb
        rcases hb with hb | hb | hb <;> omega
      · simp [h1, h2, h3] at hb
        rcases hb with hb | hb | hb | hb <;> omega


theorem hexVal_hexDigitChar (n : Nat) (h : n < 16) : hexVal (hexDigitChar n) = some n := by
  interval_cases n <;> decide

theorem hexDigitChar_unreserved (n : Nat) (h : n < 16) : isUnreservedURI (hexDigitChar n) = true := by
  interval_cases n <;> decide

theorem isUnreservedURI_lt_128 (c : Char) (h : isUnreservedURI c = true) :
    c.toNat < 128 ∧ c.toNat ≠ 37 := by
  simp only [isUnreservedURI, decide_eq_true_eq] at h
  omega

theorem utf8_foldl_encode (n : Nat) (h : n < 1114112) (acc : List Nat) :
    List.foldl utf8Step { acc := acc, cur := 0, need := 0, bad := false } (utf8EncodeNat n)
      = { acc := n :: acc, cur := 0, need := 0, bad := false } := by
  by_cases h1 : n < 128
  · simp [utf8EncodeNat, h1, utf8Step]
  · by_cases h2 : n < 2048
    · have e1 : ¬ (192 + n / 64 < 128) := by omega
      have e2 : ¬ (192 + n / 64 < 192) := by omega
      have e3 : 192 + n / 64 < 224 := by omega
      have e4 : utf8Cont (128 + n % 64) = true := by simp [utf8Cont]; omega
      simp [utf8EncodeNat, h1, h2, utf8Step, e1, e2, e3, e4]
      all_goals omega
    · by_cases h3 : n < 65536
      · have e1 : ¬ (224 + n / 4096 < 128) := by omega
        have e2 : ¬ (224 + n / 4096 < 192) := by omega
        have e3 : ¬ (224 + n / 4096 < 224) := by omega
        have e4 : 224 + n / 4096 < 240 := by omega
        have e5 : utf8Cont (128 + n / 64 % 64) = true := by simp [utf8Cont]; omega
        have e6 : utf8Cont (128 + n % 64) = true := by simp [utf8Cont]; omega
        simp [utf8EncodeNat, h1, h2, h3, utf8Step, e1, e2, e3, e4, e5, e6]
        all_goals omega
      · have e1 : ¬ (240 + n / 262144 < 128) := by omega
        have e2 : ¬ (240 + n / 262144 < 192) := by omega
        have e3 : ¬ (240 + n / 262144 < 224) := by omega
        have e4 : ¬ (240 + n / 262144 < 240) := by omega
        have e5 : utf8Cont (128 + n / 4096 % 64) = true := by simp [utf8Cont]; omega
        have e6 : utf8Cont (128 + n / 64 % 64) = true := by simp [utf8Cont]; omega
        have e7 : utf8Cont (128 + n % 64) = true := by simp [utf8Cont]; omega
        simp [utf8EncodeNat, h1, h2, h3, utf8Step, e1, e2, e3, e4, e5, e6, e7]
        all_goals omega

theorem utf8_foldl_chars (cs : List Char) (acc : List Nat) :
    List.foldl utf8Step { acc := acc, cur := 0, need := 0, bad := false }
        (cs.flatMap (fun c => utf8EncodeNat c.toNat))
      = { acc := (cs.map Char.toNat).reverse ++ acc, cur := 0, need := 0, bad := false } := by
  induction cs generalizing acc with
  | nil => simp
  | cons c cs ih =>
    rw [List.flatMap_cons, List.foldl_append, utf8_foldl_encode c.toNat (char_toNat_lt c) acc, ih]
    simp

theorem utf8DecodeList_chars (cs : List Char) :
    utf8DecodeList (cs.flatMap (fun c => utf8EncodeNat c.toNat)) = some (cs.map Char.toNat) := by
  simp [utf8DecodeList, utf8_foldl_chars]

theorem percent_foldl_byte (b : Nat) (hb : b < 256) (acc : List Nat) :
    List.foldl percentStep { acc := acc, pending := PercentPending.idle, bad := false }
        (percentByte b)
      = { acc := b :: acc, pending := PercentPending.idle, bad := false } := by
  have h1 : hexVal (hexDigitChar (b / 16)) = some (b / 16) := hexVal_hexDigitChar _ (by omega)
  have h2 : hexVal (hexDigitChar (b % 16)) = some (b % 16) := hexVal_hexDigitChar _ (by omega)
  have h3 : (Char.ofNat 37).toNat = 37 := by decide
  simp [percentByte, percentStep, h1, h2, h3]
  all_goals omega

theorem percent_foldl_bytes (bs : List Nat) (h : ∀ b ∈ bs, b < 256) (acc : List Nat) :
    List.foldl percentStep { acc := acc, pending := PercentPending.idle, bad := false }
        (bs.flatMap percentByte)
      = { acc := bs.reverse ++ acc, pending := PercentPending.idle, bad := false } := by
  induction bs generalizing acc with
  | nil => simp
  | cons b bs ih =>
    rw [List.flatMap_cons, List.foldl_append, percent_foldl_byte b (h b (by simp)) acc,
      ih (fun x hx => h x (by simp [hx]))]
    simp

theorem percent_foldl_encodeChar (c : Char) (acc : List Nat) :
    List.foldl percentStep { acc := acc, pending := PercentPending.idle, bad := false }
        (encodeURIComponentChar c)
      = { acc := (utf8EncodeNat c.toNat).reverse ++ acc,
          pending := PercentPending.idle, bad := false } := by
  by_cases h : isUnreservedURI c = true
  · obtain ⟨hlt, hne⟩ := isUnreservedURI_lt_128 c h
    have henc : utf8EncodeNat c.toNat = [c.toNat] := by simp [utf8EncodeNat, hlt]
    simp [encodeURIComponentChar, h, percentStep, hne, henc]
  · simp only [encodeURIComponentChar, h, if_false, Bool.false_eq_true]
    exact percent_foldl_bytes _ (utf8EncodeNat_lt_256 _ (char_toNat_lt c)) acc

theorem percent_foldl_chars (cs : List Char) (acc : List Nat) :
    List.foldl percentStep { acc := acc, pending := PercentPending.idle, bad := false }
        (cs.flatMap encodeURIComponentChar)
      = { acc := (cs.flatMap (fun c => utf8EncodeNat c.toNat)).reverse ++ acc,
          pending := PercentPending.idle, bad := false } := by
  induction cs generalizing acc with
  | nil => simp
  | cons c cs ih =>
    rw [List.flatMap_cons, List.foldl_append, percent_foldl_encodeChar c acc, ih]
    simp

theorem percentDecodeBytes_encode (cs : List Char) :
    percentDecodeBytes (cs.flatMap encodeURIComponentChar)
      = some (cs.flatMap (fun c => utf8EncodeNat c.toNat)) := by
  simp [percentDecodeBytes, percent_foldl_chars]

theorem decode_encodeURIComponent (s : String) :
    decodeURIComponent (encodeURIComponent s) = some s := by
  show ((percentDecodeBytes (s.data.flatMap encodeURIComponentChar)).bind (fun bs =>
    (utf8DecodeList bs).map (fun ns => String.mk (ns.map Char.ofNat)))) = some s
  rw [percentDecodeBytes_encode s.data]
  show ((utf8DecodeList (s.data.flatMap (fun c => utf8EncodeNat c.toNat))).map
    (fun ns => String.mk (ns.map Char.ofNat))) = some s
  rw [utf8DecodeList_chars s.data]
  have hcomp : (Char.ofNat ∘ Char.toNat) = (fun c : Char => c) :=
    funext (fun c => Char.ofNat_toNat c)
  show some (String.mk ((s.data.map Char.toNat).map Char.ofNat)) = some s
  rw [List.map_map, hcomp]
  simp

theorem encodeURIComponentChar_chars (c : Char) :
    ∀ x ∈ encodeURIComponentChar c, isUnreservedURI x = true ∨ x.toNat = 37 := by
  intro x hx
  by_cases h : isUnreservedURI c = true
  · simp [encodeURIComponentChar, h] at hx
    subst hx
    exact Or.inl h
  · simp [encodeURIComponentChar, h, List.mem_flatMap] at hx
    obtain ⟨b, hb, hxb⟩ := hx
    have hb256 : b < 256 := utf8EncodeNat_lt_256 c.toNat (char_toNat_lt c) b hb
    simp [percentByte] at hxb
    rcases hxb with h1 | h1 | h1
    · subst h1
      exact Or.inr (by decide)
    · subst h1
      exact Or.inl (hexDigitChar_unreserved _ (by omega))
    · subst h1
      exact Or.inl (hexDigitChar_unreserved _ (by omega))

/-! ### Lemmas about the renderer -/

theorem jsTrimE_of_truthy (o : Option String) (h : jsTruthy o = true) :
    jsTrimE o = Except.ok (jsTrim (o.getD "")) := by
  cases o with
  | none => simp [jsTruthy] at h
  | some s => rfl

theorem ingredientsGoExc_ok (d : Drink) :
    ∀ (fuel i : Nat), ingredientsGoExc d i fuel = Except.ok (ingredientsGo d i fuel) := by
  intro fuel
  induction fuel with
  | zero => intro i; rfl
  | succ n ih =>
    intro i
    by_cases hI : jsTruthy (d.strIngredient i) = true
    · by_cases hM : jsTruthy (d.strMeasure i) = true
      · simp [ingredientsGoExc, ingredientsGo, hI, hM, jsTrimE_of_truthy _ hI,
          jsTrimE_of_truthy _ hM, Except.map, ih, ingredientLi]
      · simp [ingredientsGoExc, ingredientsGo, hI, hM, jsTrimE_of_truthy _ hI,
          Except.map, ih, ingredientLi]
    · simp [ingredientsGoExc, ingredientsGo, hI]

theorem displayCocktailExc_ok (drink : Option Drink) :
    displayCocktailExc drink = Except.ok (displayCocktailHtml drink) := by
  cases drink with
  | none => rfl
  | some d => simp [displayCocktailExc, displayCocktailHtml, ingredientsGoExc_ok, ingredientsHtml]

theorem ingredientsGo_eq_takeWhile (d : Drink) :
    ∀ (fuel i : Nat),
      ingredientsGo d i fuel
        = strConcat (((List.range' i fuel).takeWhile (fun j => jsTruthy (d.strIngredient j))).map
            (fun j => ingredientLi (d.strMeasure j) (d.strIngredient j))) := by
  intro fuel
  induction fuel with
  | zero => intro i; rfl
  | succ n ih =>
    intro i
    by_cases hI : jsTruthy (d.strIngredient i) = true
    · simp [ingredientsGo, hI, List.range', List.takeWhile_cons, strConcat, ih]
    · simp [ingredientsGo, hI, List.range', List.takeWhile_cons, strConcat]

/-! ### Claims -/

/-- C1: `fetchSingleCocktail` (embodied by `fetchCocktailData`, shared by the
search, random and lookup-by-id flows) returns the absent value when the
parsed body's `drinks` collection is `null` or empty, and otherwise returns
exactly its first element. -/
theorem fetchSingleCocktail_first_or_absent (url : String) (r : ApiResponse Drink)
    (hok : r.ok = true) :
    (r.body = ApiBody.drinksNull → (fetchCocktailData url r).1 = Except.ok none)
    ∧ (r.body = ApiBody.drinks [] → (fetchCocktailData url r).1 = Except.ok none)
    ∧ (∀ (d : Drink) (ds : List Drink), r.body = ApiBody.drinks (d :: ds) →
        (fetchCocktailData url r).1 = Except.ok (some d))
    ∧ (∀ (l : List Drink) (dom : Dom) (input drinkId : String), r.body = ApiBody.drinks l →
        (fetchAndDisplayRandomCocktail r dom).1.cocktailDisplay = displayCocktailHtml l.head?
        ∧ (fetchAndDisplayCocktailDetails drinkId r dom).1.cocktailDisplay
            = displayCocktailHtml l.head?
        ∧ ((jsTrim input == "") = false →
            (searchAndDisplayCocktail input r dom).1.cocktailDisplay
              = displayCocktailHtml l.head?)) := by
  refine ⟨?_, ?_, ?_, ?_⟩
  · intro hbody
    simp [fetchCocktailData, hok, hbody]
  · intro hbody
    simp [fetchCocktailData, hok, hbody]
  · intro d ds hbody
    simp [fetchCocktailData, hok, hbody]
  · intro l dom input drinkId hbody
    refine ⟨?_, ?_, ?_⟩
    · simp [fetchAndDisplayRandomCocktail, fetchCocktailData, hok, hbody]
    · simp [fetchAndDisplayCocktailDetails, fetchCocktailData, hok, hbody]
    · intro hinput
      simp [searchAndDisplayCocktail, hinput, fetchCocktailData, hok, hbody]

/-- Witness for C1: a concrete one-element search response yields its first
drink. -/
theorem fetchSingleCocktail_first_or_absent_witness :
    (fetchCocktailData (searchUrl "Margarita") respOneDrink).1 = Except.ok (some drinkMargarita) :=
  (fetchSingleCocktail_first_or_absent (searchUrl "Margarita") respOneDrink rfl).2.2.1
    drinkMargarita [] rfl

/-- C2 counterexample: on a concrete HTTP 500 response the category-list
operation does not raise: it returns the absent value with `Except.ok`, and
it has already rendered the error state itself (into the cocktail display
region) before any interaction-controller code runs — whereas the claim's
propagation model (`fetchCategoryListSpec`) would raise `HttpError`. -/
theorem categoryList_traps_instead_of_raising :
    fetchCategoryListSpec respHttp500Cat = Except.error (ApiError.httpError 500)
    ∧ (fetchCocktailCategoriesRun respHttp500Cat emptyDom).1 = Except.ok none
    ∧ (fetchCocktailCategoriesRun respHttp500Cat emptyDom).2.1.cocktailDisplay
        = errorText ("Error al cargar las categorías: "
            ++ ApiError.message (ApiError.httpError 500)) :=
  ⟨rfl, rfl, rfl⟩

/-- C2 amended: `fetchSingleCocktail` surfaces HTTP/parse failures by raising,
and every interaction-controller flow that awaits it traps the raise and
renders an error state carrying the failure's message; the combined
category-browse flow traps its failures within the flow; the category-list
operation, however, traps its own failures inside the API client, renders the
message itself and returns the absent value instead of raising.  In every
case a rendered error state carrying the message is produced and no failure
propagates further. -/
theorem errors_trapped_and_rendered :
    (∀ (url : String) (r : ApiResponse Drink), r.ok = false →
        (fetchCocktailData url r).1 = Except.error (ApiError.httpError r.status))
    ∧ (∀ (url : String) (r : ApiResponse Drink) (msg : String),
        r.ok = true → r.body = ApiBody.malformed msg →
          (fetchCocktailData url r).1 = Except.error (ApiError.parseError msg))
    ∧ (∀ (r : ApiResponse Drink) (dom : Dom) (e : ApiError),
        (fetchCocktailData randomUrl r).1 = Except.error e →
          (fetchAndDisplayRandomCocktail r dom).1.cocktailDisplay
            = errorText ("Error al cargar cóctel aleatorio: " ++ e.message))
    ∧ (∀ (input : String) (r : ApiResponse Drink) (dom : Dom) (e : ApiError),
        (jsTrim input == "") = false →
        (fetchCocktailData (searchUrl (jsTrim input)) r).1 = Except.error e →
          (searchAndDisplayCocktail input r dom).1.cocktailDisplay
            = errorText ("Error al buscar cóctel: " ++ e.message))
    ∧ (∀ (drinkId : String) (r : ApiResponse Drink) (dom : Dom) (e : ApiError),
        (fetchCocktailData (lookupUrl drinkId) r).1 = Except.error e →
          (fetchAndDisplayCocktailDetails drinkId r dom).1.cocktailDisplay
            = errorText ("Error al cargar detalles del cóctel: " ++ e.message))
    ∧ (∀ (category : String) (r : ApiResponse DrinkSummary) (dom : Dom), r.ok = false →
        (fetchAndDisplayCocktailsByCategory category r dom).1.cocktailDisplay
          = errorText ("Error al cargar cócteles de la categoría \"" ++ category ++ "\": "
              ++ ApiError.message (ApiError.httpError r.status)))
    ∧ (∀ (r : ApiResponse Category) (dom : Dom), r.ok = false →
        (fetchCocktailCategoriesRun r dom).1 = Except.ok none
        ∧ (fetchCocktailCategoriesRun r dom).2.1.cocktailDisplay
            = errorText ("Error al cargar las categorías: "
                ++ ApiError.message (ApiError.httpError r.status)))
    ∧ (∀ (category : String) (r : ApiResponse DrinkSummary) (dom : Dom) (msg : String),
        r.ok = true → r.body = ApiBody.malformed msg →
          (fetchAndDisplayCocktailsByCategory category r dom).1.cocktailDisplay
            = errorText ("Error al cargar cócteles de la categoría \"" ++ category ++ "\": "
                ++ ApiError.message (ApiError.parseError msg)))
    ∧ (∀ (r : ApiResponse Category) (dom : Dom) (msg : String),
        r.ok = true → r.body = ApiBody.malformed msg →
          (fetchCocktailCategoriesRun r dom).1 = Except.ok none
          ∧ (fetchCocktailCategoriesRun r dom).2.1.cocktailDisplay
              = errorText ("Error al cargar las categorías: "
                  ++ ApiError.message (ApiError.parseError msg))) := by
  refine ⟨?_, ?_, ?_, ?_, ?_, ?_, ?_, ?_, ?_⟩
  · intro url r h
    simp [fetchCocktailData, h]
  · intro url r msg hok hbody
    simp [fetchCocktailData, hok, hbody]
  · intro r dom e hr
    simp [fetchAndDisplayRandomCocktail, hr]
  · intro input r dom e hinput hr
    simp [searchAndDisplayCocktail, hinput, hr]
  · intro drinkId r dom e hr
    simp [fetchAndDisplayCocktailDetails, hr]
  · intro category r dom h
    simp [fetchAndDisplayCocktailsByCategory, h]
  · intro r dom h
    constructor
    · simp [fetchCocktailCategoriesRun, h]
    · simp [fetchCocktailCategoriesRun, h]
  · intro category r dom msg hok hbody
    simp [fetchAndDisplayCocktailsByCategory, hok, hbody, ApiError.message]
  · intro r dom msg hok hbody
    constructor
    · simp [fetchCocktailCategoriesRun, hok, hbody]
    · simp [fetchCocktailCategoriesRun, hok, hbody, ApiError.message]

/-- Witness for the amended C2: a concrete HTTP 500 random-cocktail response
is raised by the client and rendered as an error state by the flow, and a
concrete malformed (parse-failure) body is trapped and rendered by the
category-browse flow and by the category-list operation (which returns the
absent value). -/
theorem errors_trapped_and_rendered_witness :
    (fetchCocktailData randomUrl respHttp500Drink).1
        = Except.error (ApiError.httpError 500)
    ∧ (fetchAndDisplayRandomCocktail respHttp500Drink emptyDom).1.cocktailDisplay
        = errorText ("Error al cargar cóctel aleatorio: "
            ++ ApiError.message (ApiError.httpError 500))
    ∧ (fetchAndDisplayCocktailsByCategory "Ordinary Drink"
          { ok := true, status := 200,
            body := ApiBody.malformed "SyntaxError: Unexpected end of JSON input" }
          emptyDom).1.cocktailDisplay
        = errorText ("Error al cargar cócteles de la categoría \"" ++ "Ordinary Drink" ++ "\": "
            ++ ApiError.message (ApiError.parseError "SyntaxError: Unexpected end of JSON input"))
    ∧ (fetchCocktailCategoriesRun
          { ok := true, status := 200,
            body := ApiBody.malformed "SyntaxError: Unexpected end of JSON input" }
          emptyDom).1 = Except.ok none := by
  have h1 := errors_trapped_and_rendered.1 randomUrl respHttp500Drink rfl
  refine ⟨h1, errors_trapped_and_rendered.2.2.1 respHttp500Drink emptyDom
      (ApiError.httpError 500) h1, ?_, ?_⟩
  · exact errors_trapped_and_rendered.2.2.2.2.2.2.2.1 "Ordinary Drink" _ emptyDom
      "SyntaxError: Unexpected end of JSON input" rfl rfl
  · exact (errors_trapped_and_rendered.2.2.2.2.2.2.2.2 _ emptyDom
      "SyntaxError: Unexpected end of JSON input" rfl rfl).1

/-- C3: the rendered ingredient list iterates positions 1..15 and stops at
the first missing ingredient (so the entries are exactly the `takeWhile`
prefix of truthy positions, each pairing the ingredient with its trimmed
measure when present and omitting the measure otherwise); in particular a
record with ingredients at positions 1, 2 and 4 only renders exactly 2
entries even though position 4 holds data. -/
theorem ingredient_loop_stops_at_first_gap :
    (∀ d : Drink, ingredientsHtml d
        = "<ul>"
          ++ strConcat (((List.range' 1 15).takeWhile
                (fun j => jsTruthy (d.strIngredient j))).map
              (fun j => ingredientLi (d.strMeasure j) (d.strIngredient j)))
          ++ "</ul>")
    ∧ ((List.range' 1 15).takeWhile (fun j => jsTruthy (drink124.strIngredient j))).length = 2
    ∧ ingredientsHtml drink124 = "<ul><li>4 cl Vodka</li><li>Triple sec</li></ul>"
    ∧ jsTruthy (drink124.strIngredient 4) = true := by
  refine ⟨?_, by decide, by decide, by decide⟩
  intro d
  rw [ingredientsHtml, ingredientsGo_eq_takeWhile]

/-- C4: every renderer is total — with every fallible JS operation tracked,
`displayCocktail` never throws for any reachable input shape, including
records with absent optional fields — and writing any renderer's markup into
its display region is idempotent. -/
theorem renderers_total_and_idempotent :
    (∀ drink : Option Drink, displayCocktailExc drink = Except.ok (displayCocktailHtml drink))
    ∧ (∀ (drink : Option Drink) (dom : Dom),
        renderCocktailInto drink (renderCocktailInto drink dom) = renderCocktailInto drink dom)
    ∧ (∀ (categories : Option (List Category)) (dom : Dom),
        renderCategoriesInto categories (renderCategoriesInto categories dom)
          = renderCategoriesInto categories dom)
    ∧ (∀ (l : List DrinkSummary) (dom : Dom),
        renderGridInto l (renderGridInto l dom) = renderGridInto l dom)
    ∧ (∀ (message : String) (dom : Dom),
        renderLoadingInto message (renderLoadingInto message dom)
          = renderLoadingInto message dom)
    ∧ (∀ (message : String) (dom : Dom),
        renderErrorInto message (renderErrorInto message dom) = renderErrorInto message dom) :=
  ⟨displayCocktailExc_ok, fun drink dom => rfl, fun categories dom => rfl, fun l dom => rfl,
    fun message dom => rfl, fun message dom => rfl⟩

/-- C5: a search whose field content trims to the empty string renders the
validation-error state, performs no side effect at all — in particular no
network request — and never reaches the API client. -/
theorem empty_search_no_request (input : String) (h : jsTrim input = "")
    (r : ApiResponse Drink) (dom : Dom) :
    (searchAndDisplayCocktail input r dom).1
        = { dom with
            cocktailDisplay := errorText "Por favor, introduce un nombre de cóctel para buscar." }
    ∧ (searchAndDisplayCocktail input r dom).2 = []
    ∧ ((searchAndDisplayCocktail input r dom).2.any Event.isHttpRequest) = false := by
  refine ⟨?_, ?_, ?_⟩ <;> simp [searchAndDisplayCocktail, h]

/-- Witness for C5 at a concrete whitespace-only input. -/
theorem empty_search_no_request_witness :
    (searchAndDisplayCocktail "   " respOneDrink emptyDom).2 = []
    ∧ (searchAndDisplayCocktail "   " respOneDrink emptyDom).1
        = { emptyDom with
            cocktailDisplay := errorText "Por favor, introduce un nombre de cóctel para buscar." } := by
  have h := empty_search_no_request "   " (by decide) respOneDrink emptyDom
  exact ⟨h.2.1, h.1⟩

/-- C6: every user-supplied value interpolated into a request URL (search
term, category name, drink identifier) is percent-encoded exactly once:
the outgoing URL embeds `encodeURIComponent` of the value, a single decode
recovers the value verbatim (so it is not double-encoded), and the encoded
segment contains no raw reserved character — only unreserved characters and
the `%` of escapes. -/
theorem user_values_encoded_exactly_once (s : String) :
    searchUrl s = cocktailApiBaseUrl ++ "search.php?s=" ++ encodeURIComponent s
    ∧ filterUrl s = cocktailApiBaseUrl ++ "filter.php?c=" ++ encodeURIComponent s
    ∧ lookupUrl s = cocktailApiBaseUrl ++ "lookup.php?i=" ++ encodeURIComponent s
    ∧ decodeURIComponent (encodeURIComponent s) = some s
    ∧ ((encodeURIComponent s).data.all (fun c => isUnreservedURI c || c.toNat == 37)) = true := by
  refine ⟨rfl, rfl, rfl, decode_encodeURIComponent s, ?_⟩
  simp only [List.all_eq_true]
  intro x hx
  rw [show (encodeURIComponent s).data = s.data.flatMap encodeURIComponentChar from rfl,
    List.mem_flatMap] at hx
  obtain ⟨c, hc, hxc⟩ := hx
  rcases encodeURIComponentChar_chars c x hxc with h | h
  · simp [h]
  · simp [h]

/-- C7: `displayCategories` renders the identical none-found markup for the
empty list and for the absent value. -/
theorem categories_empty_eq_absent :
    displayCategoriesHtml (some []) = displayCategoriesHtml none
    ∧ displayCategoriesHtml none = noCategoriesText :=
  ⟨rfl, rfl⟩

/-- C8: rendering the absent drink always yields the localized not-found
message, never throws, and does so regardless of the prior content of the
display regions; on the flow level the absent value reaches the renderer as
a normal value (no `console.error`, no error-path message), not via the
trapped-error path. -/
theorem renderCocktailDetail_absent (dom : Dom) :
    (renderCocktailInto none dom).cocktailDisplay = notFoundCocktailText
    ∧ displayCocktailExc none = Except.ok notFoundCocktailText
    ∧ (∀ (input : String) (r : ApiResponse Drink),
        (jsTrim input == "") = false → r.ok = true → r.body = ApiBody.drinksNull →
          (searchAndDisplayCocktail input r dom).1.cocktailDisplay = notFoundCocktailText
          ∧ ((searchAndDisplayCocktail input r dom).2.any Event.isConsoleError) = false) := by
  refine ⟨rfl, rfl, ?_⟩
  intro input r hinput hok hbody
  constructor
  · simp [searchAndDisplayCocktail, hinput, fetchCocktailData, hok, hbody, displayCocktailHtml]
  · simp [searchAndDisplayCocktail, hinput, fetchCocktailData, hok, hbody, Event.isConsoleError]

/-- Witness for C8 at a concrete non-empty search with a `drinks: null`
response on the empty page state. -/
theorem renderCocktailDetail_absent_witness :
    (renderCocktailInto none emptyDom).cocktailDisplay = notFoundCocktailText
    ∧ (searchAndDisplayCocktail "Margarita" respDrinksNull emptyDom).1.cocktailDisplay
        = notFoundCocktailText := by
  have h := renderCocktailDetail_absent emptyDom
  exact ⟨h.1, (h.2.2 "Margarita" respDrinksNull (by decide) rfl rfl).1⟩

/-- C9 counterexample: the category-list operation issues its request with no
diagnostic log line before it (its whole trace contains no console log at
all), refuting that every API operation logs the constructed URL before each
request. -/
theorem categories_request_has_no_url_log :
    ((fetchCocktailCategoriesRun respCategoriesOk emptyDom).2.2.any Event.isHttpRequest) = true
    ∧ urlLoggedBeforeRequest ((fetchCocktailCategoriesRun respCategoriesOk emptyDom).2.2) = false
    ∧ ((fetchCocktailCategoriesRun respCategoriesOk emptyDom).2.2.any Event.isConsoleLog)
        = false := by
  refine ⟨rfl, ?_, rfl⟩
  rfl

/-- C9 amended: only `fetchCocktailData` (the shared single-cocktail helper
used by the search, random and lookup flows) emits the diagnostic log line
with the constructed URL before its request, and that logging has no effect
on the returned value; the category-list and filter-by-category requests are
issued without any console log line. -/
theorem url_log_only_in_fetchCocktailData :
    (∀ (url : String) (r : ApiResponse Drink),
        (fetchCocktailData url r).2.take 2
          = [Event.consoleLog ("Fetching URL: " ++ url), Event.httpRequest url]
        ∧ urlLoggedBeforeRequest ((fetchCocktailData url r).2) = true
        ∧ (fetchCocktailData url r).1 = fetchCocktailDataResult r)
    ∧ (∀ (r : ApiResponse Category) (dom : Dom),
        ((fetchCocktailCategoriesRun r dom).2.2.any Event.isConsoleLog) = false)
    ∧ (∀ (category : String) (r : ApiResponse DrinkSummary) (dom : Dom),
        ((fetchAndDisplayCocktailsByCategory category r dom).2.any Event.isConsoleLog)
          = false) := by
  refine ⟨?_, ?_, ?_⟩
  · intro url r
    rcases r with ⟨ok, status, body⟩
    refine ⟨?_, ?_, ?_⟩ <;> cases ok <;> cases body <;>
      simp [fetchCocktailData, fetchCocktailDataResult, urlLoggedBeforeRequest,
        Event.isHttpRequest, Event.isConsoleLog]
  · intro r dom
    rcases r with ⟨ok, status, body⟩
    cases ok <;> cases body <;> simp [fetchCocktailCategoriesRun, Event.isConsoleLog]
  · intro category r dom
    rcases r with ⟨ok, status, body⟩
    cases ok <;> cases body <;>
      simp [fetchAndDisplayCocktailsByCategory, Event.isConsoleLog]

/-- C10: when the initial category listing fetch fails (HTTP error or parse
error), the error message is rendered into the cocktail-detail region, the
operation returns the absent value instead of re-raising, and the categories
region is then overwritten with the none-found message — one failure updates
both display regions. -/
theorem category_failure_updates_two_regions (r : ApiResponse Category) (dom : Dom)
    (h : r.ok = false) :
    (fetchCocktailCategoriesRun r dom).1 = Except.ok none
    ∧ (initializeCategoriesRun r dom).1.cocktailDisplay
        = errorText ("Error al cargar las categorías: "
            ++ ApiError.message (ApiError.httpError r.status))
    ∧ (initializeCategoriesRun r dom).1.categoriesDisplay = noCategoriesText
    ∧ (∀ (r2 : ApiResponse Category) (msg : String),
        r2.ok = true → r2.body = ApiBody.malformed msg →
          (fetchCocktailCategoriesRun r2 dom).1 = Except.ok none
          ∧ (initializeCategoriesRun r2 dom).1.cocktailDisplay
              = errorText ("Error al cargar las categorías: " ++ msg)
          ∧ (initializeCategoriesRun r2 dom).1.categoriesDisplay = noCategoriesText) := by
  refine ⟨?_, ?_, ?_, ?_⟩
  · simp [fetchCocktailCategoriesRun, h]
  · simp [initializeCategoriesRun, fetchCocktailCategoriesRun, h]
  · simp [initializeCategoriesRun, fetchCocktailCategoriesRun, h, displayCategoriesHtml]
  · intro r2 msg hok hbody
    refine ⟨?_, ?_, ?_⟩
    · simp [fetchCocktailCategoriesRun, hok, hbody]
    · simp [initializeCategoriesRun, fetchCocktailCategoriesRun, hok, hbody, ApiError.message]
    · simp [initializeCategoriesRun, fetchCocktailCategoriesRun, hok, hbody,
        displayCategoriesHtml]

/-- Witness for C10 at a concrete HTTP 500 category-list response. -/
theorem category_failure_updates_two_regions_witness :
    (initializeCategoriesRun respHttp500Cat emptyDom).1.categoriesDisplay = noCategoriesText
    ∧ (initializeCategoriesRun respHttp500Cat emptyDom).1.cocktailDisplay
        = errorText ("Error al cargar las categorías: "
            ++ ApiError.message (ApiError.httpError 500)) := by
  have h := category_failure_updates_two_regions respHttp500Cat emptyDom rfl
  exact ⟨h.2.2.1, h.2.1⟩
